import Mathlib

/-!
Shallow embedding of the configuration module of `sf-go-profiler`.

Two variants of the module exist in the repository:
* `src/profiler/config.go` — embedded in namespace `Profiler`;
* `src/unnamed/part_000`  — embedded in namespace `ProfilerB`.

Go `time.Duration` is an `int64` count of nanoseconds; it is modelled as `Int`
with `second = 1000000000`.  A Go channel is modelled by its capacity (the only
aspect the configuration code determines).  The logger field (a Go function
value) is modelled by a tag recording whether the default or a custom logger is
installed.
-/

namespace Profiler

/-- Nanoseconds per second (Go `time.Second`). -/
def second : Int := 1000000000

/-! Profile type tags, the string constants of `config.go`. -/

def cpu : String := "cpu"

def heap : String := "heap"

def block : String := "block"

def mutex : String := "mutex"

def goroutine : String := "goroutine"

def allocs : String := "allocs"

def threadcreate : String := "threadcreate"

/-- Default directory where profiles are stored while writing to file. -/
def DefaultProfilesDir : String := "./profiles"

/-- Time to preserve old profile files (`900 * time.Second`). -/
def DefaultProfilesAge : Int := 900 * second

/-- Default url to send profiles to agent. -/
def DefaultAgentURL : String := "http://127.0.0.1:8586/profile"

/-- Default cpu profile duration (`10 * time.Second`). -/
def DefaultCPUProfileDuration : Int := 10 * second

/-- Default interval at which profiles are collected (`60 * time.Second`). -/
def DefaultProfileInterval : Int := 60 * second

/-- `allProfiles` of `config.go` (note the order). -/
def allProfiles : List String :=
  [threadcreate, block, mutex, goroutine, allocs, heap, cpu]

/-- `defaultProfiles` of `config.go`. -/
def defaultProfiles : List String := [heap, cpu]

/-- The logger slot of a `Config`: either the package default `defaultlogf`
or a custom function installed via `SetLogger` (identified by a tag, since
Go function values are opaque). -/
inductive LogFn where
  | default : LogFn
  | custom : Nat → LogFn
deriving DecidableEq, Repr

/-- The `Config` struct of `config.go`.  Channels are modelled by their
capacities; `cancelSet` records whether the `cancel` field holds a function
(it is Go's zero value `nil` at construction). -/
structure Config where
  duration : Int
  interval : Int
  profileTypes : List String
  cancelSet : Bool
  outProfileCap : Nat
  outMetricsCap : Nat
  service : String
  dumpToFile : Bool
  targetURL : String
  customTarget : Bool
  logf : LogFn
deriving DecidableEq, Repr

/-- `NewProfilerConfig` returns profiler config.  Accepts service name as
argument; service name is required for identification. -/
def NewProfilerConfig (service : String) : Config :=
  { service := service
    duration := DefaultCPUProfileDuration
    interval := DefaultProfileInterval
    profileTypes := defaultProfiles
    cancelSet := false
    outProfileCap := allProfiles.length + 1
    outMetricsCap := 1
    dumpToFile := false
    targetURL := DefaultAgentURL
    customTarget := false
    logf := LogFn.default }

/-- `SetInterval` sets interval between profiles collection
(`time.Duration(i) * time.Second`). -/
def SetInterval (cfg : Config) (i : Int) : Config :=
  { cfg with interval := i * second }

/-- `SetCPUProfileDuration` sets duration in seconds for which cpu profile is
collected. -/
def SetCPUProfileDuration (cfg : Config) (i : Int) : Config :=
  { cfg with duration := i * second }

/-- `EnableBlockProfile` enables block profile (appends to `profileTypes`). -/
def EnableBlockProfile (cfg : Config) : Config :=
  { cfg with profileTypes := cfg.profileTypes ++ [block] }

/-- `EnableMutexProfile` enables mutex profile. -/
def EnableMutexProfile (cfg : Config) : Config :=
  { cfg with profileTypes := cfg.profileTypes ++ [mutex] }

/-- `EnableGoRoutineProfile` enables goroutine profile. -/
def EnableGoRoutineProfile (cfg : Config) : Config :=
  { cfg with profileTypes := cfg.profileTypes ++ [goroutine] }

/-- `EnableThreadCreateProfile` enables threadcreate profile. -/
def EnableThreadCreateProfile (cfg : Config) : Config :=
  { cfg with profileTypes := cfg.profileTypes ++ [threadcreate] }

/-- `EnableAllProfiles` enables all currently supported profile types
(replaces `profileTypes` with `allProfiles`). -/
def EnableAllProfiles (cfg : Config) : Config :=
  { cfg with profileTypes := allProfiles }

/-- `WriteProfileToFile` writes all collected profiles to file in
`DefaultProfilesDir`, with file name formatted as
service_timestamp_pid.profiletype. -/
def WriteProfileToFile (cfg : Config) : Config :=
  { cfg with dumpToFile := true }

/-- `SetTargetURL` sets target url to given string. -/
def SetTargetURL (cfg : Config) (url : String) : Config :=
  { cfg with customTarget := true, targetURL := url }

/-- `SetLogger` allows to set custom logger. -/
def SetLogger (cfg : Config) (logf : LogFn) : Config :=
  { cfg with logf := logf }

end Profiler

namespace ProfilerB

/-! The second variant of the module, `src/unnamed/part_000`.  Its profile
tag constants have the same values; its `allProfiles` and `defaultProfiles`
list the same catalogs in a different order, and the struct has a single
output channel `out`. -/

def second : Int := 1000000000

def cpu : String := "cpu"

def heap : String := "heap"

def block : String := "block"

def mutex : String := "mutex"

def goroutine : String := "goroutine"

def allocs : String := "allocs"

def threadcreate : String := "threadcreate"

def DefaultProfilesDir : String := "./profiles"

def DefaultProfilesAge : Int := 900 * second

def DefaultAgentURL : String := "http://127.0.0.1:8586/profile"

def DefaultCPUProfileDuration : Int := 10 * second

def DefaultProfileInterval : Int := 60 * second

/-- `allProfiles` of `part_000` (note the order differs from `config.go`). -/
def allProfiles : List String :=
  [cpu, heap, block, mutex, goroutine, allocs, threadcreate]

/-- `defaultProfiles` of `part_000`. -/
def defaultProfiles : List String := [cpu, heap]

/-- The `Config` struct of `part_000`: one output channel `out` of
`pprofData`, modelled by its capacity. -/
structure Config where
  duration : Int
  interval : Int
  profileTypes : List String
  cancelSet : Bool
  outCap : Nat
  service : String
  dumpToFile : Bool
  targetURL : String
  customTarget : Bool
  logf : Profiler.LogFn
deriving DecidableEq, Repr

/-- `NewProfilerConfig` of `part_000`. -/
def NewProfilerConfig (service : String) : Config :=
  { service := service
    duration := DefaultCPUProfileDuration
    interval := DefaultProfileInterval
    profileTypes := defaultProfiles
    cancelSet := false
    outCap := allProfiles.length + 1
    dumpToFile := false
    targetURL := DefaultAgentURL
    customTarget := false
    logf := Profiler.LogFn.default }

/-- `EnableAllProfiles` of `part_000`. -/
def EnableAllProfiles (cfg : Config) : Config :=
  { cfg with profileTypes := allProfiles }

end ProfilerB

/-- The character for a single decimal digit. -/
def digitChar (d : Nat) : Char :=
  match d with
  | 0 => '0'
  | 1 => '1'
  | 2 => '2'
  | 3 => '3'
  | 4 => '4'
  | 5 => '5'
  | 6 => '6'
  | 7 => '7'
  | 8 => '8'
  | 9 => '9'
  | _ => '?'

/-- The decimal digit encoded by a character (inverse of `digitChar`). -/
def charDigit (c : Char) : Nat := c.toNat - 48

/-- Modelled from the spec: standard decimal rendering of a natural number,
as used for the `{unixTimestamp}` and `{pid}` fields of profile file names
(the file-writing code is outside the provided sources). -/
def natReprChars (n : Nat) : List Char :=
  if n = 0 then ['0'] else ((Nat.digits 10 n).map digitChar).reverse

/-- Decimal rendering as a `String`. -/
def natRepr (n : Nat) : String := String.mk (natReprChars n)

/-- Reads a decimal digit string back as a number; left inverse of
`natReprChars`. -/
def unRepr (l : List Char) : Nat :=
  l.foldl (fun acc c => 10 * acc + charDigit c) 0

/-- Modelled from the spec: the profile file name convention
`{service}_{unixTimestamp}_{pid}.{profileType}` used when writing profiles
to file (documented on `WriteProfileToFile`; the dump code itself is outside
the provided sources). -/
def profileFileName (service : String) (ts pid : Nat) (ptype : String) : String :=
  service ++ "_" ++ natRepr ts ++ "_" ++ natRepr pid ++ "." ++ ptype

open Profiler

/-- Helper: appending the same element twice yields the same finite set as
appending it once. -/
theorem toFinset_append_singleton_twice (xs : List String) (a : String) :
    ((xs ++ [a]) ++ [a]).toFinset = (xs ++ [a]).toFinset := by
  ext x
  simp [or_assoc]

/-- Claim C1 fails as stated: the configuration returned by
`NewProfilerConfig` does not have output mode set to file — `dumpToFile`
is `false` at construction (profiles go to the agent URL by default). -/
theorem newProfilerConfig_defaults_counterexample :
    ¬ ((NewProfilerConfig "api").interval = 60 * second ∧
       (NewProfilerConfig "api").duration = 10 * second ∧
       (NewProfilerConfig "api").profileTypes.toFinset =
         ({cpu, heap} : Finset String) ∧
       (NewProfilerConfig "api").dumpToFile = true ∧
       DefaultProfilesAge = 900 * second ∧
       (NewProfilerConfig "api").targetURL = DefaultAgentURL) := by
  intro h
  exact absurd h.2.2.2.1 (by decide)

/-- Claim C1 (amended): `NewProfilerConfig s` has interval 60 s, CPU
duration 10 s, enabled set `{cpu, heap}`, file output disabled
(`dumpToFile = false`; output goes to the default agent URL
`http://127.0.0.1:8586/profile`), and the package retention-age default
is 900 s. -/
theorem newProfilerConfig_defaults (s : String) :
    (NewProfilerConfig s).service = s ∧
    (NewProfilerConfig s).interval = 60 * second ∧
    (NewProfilerConfig s).duration = 10 * second ∧
    (NewProfilerConfig s).profileTypes.toFinset = ({cpu, heap} : Finset String) ∧
    (NewProfilerConfig s).dumpToFile = false ∧
    (NewProfilerConfig s).targetURL = DefaultAgentURL ∧
    (NewProfilerConfig s).targetURL = "http://127.0.0.1:8586/profile" ∧
    DefaultProfilesAge = 900 * second := by
  refine ⟨rfl, rfl, rfl, ?_, rfl, rfl, rfl, by decide⟩
  show defaultProfiles.toFinset = _
  decide

/-- Claim C2: each individual enable operation is idempotent up to the
duplicate-free set of enabled profile types — calling it twice yields the
same set as calling it once. -/
theorem enable_individual_idempotent (cfg : Config) :
    (EnableBlockProfile (EnableBlockProfile cfg)).profileTypes.toFinset =
      (EnableBlockProfile cfg).profileTypes.toFinset ∧
    (EnableMutexProfile (EnableMutexProfile cfg)).profileTypes.toFinset =
      (EnableMutexProfile cfg).profileTypes.toFinset ∧
    (EnableGoRoutineProfile (EnableGoRoutineProfile cfg)).profileTypes.toFinset =
      (EnableGoRoutineProfile cfg).profileTypes.toFinset ∧
    (EnableThreadCreateProfile (EnableThreadCreateProfile cfg)).profileTypes.toFinset =
      (EnableThreadCreateProfile cfg).profileTypes.toFinset :=
  ⟨toFinset_append_singleton_twice _ _, toFinset_append_singleton_twice _ _,
   toFinset_append_singleton_twice _ _, toFinset_append_singleton_twice _ _⟩

/-- Claim C3 fails as stated: no validation exists.  Construction with an
empty service name succeeds and stores the empty service, and the duration
setters accept zero and negative values, storing non-positive durations. -/
theorem config_validation_counterexample :
    (NewProfilerConfig "").service = "" ∧
    (SetCPUProfileDuration (NewProfilerConfig "api") 0).duration = 0 ∧
    ¬ (0 < (SetCPUProfileDuration (NewProfilerConfig "api") 0).duration) ∧
    (SetInterval (NewProfilerConfig "api") (-5)).interval = -5 * second ∧
    ¬ (0 < (SetInterval (NewProfilerConfig "api") (-5)).interval) := by
  refine ⟨rfl, by decide, by decide, by decide, by decide⟩

/-- Claim C3 (amended): the configuration operations perform no validation
and reject nothing — `NewProfilerConfig` stores any service name including
the empty string, and `SetInterval` / `SetCPUProfileDuration` store any
second count including zero and negative ones. -/
theorem config_no_validation (s : String) (i j : Int) :
    (NewProfilerConfig s).service = s ∧
    (SetInterval (NewProfilerConfig s) i).interval = i * second ∧
    (SetCPUProfileDuration (NewProfilerConfig s) j).duration = j * second :=
  ⟨rfl, rfl, rfl⟩

/-- Claim C4: after `EnableAllProfiles` the enabled set equals exactly the
seven-element catalog, regardless of the previous contents. -/
theorem enableAllProfiles_full_catalog (cfg : Config) :
    (EnableAllProfiles cfg).profileTypes.toFinset =
      ({cpu, heap, block, mutex, goroutine, allocs, threadcreate} :
        Finset String) := by
  show allProfiles.toFinset = _
  decide

/-- Claim C5: `EnableAllProfiles` is idempotent — calling it twice yields
the same enabled profile set as calling it once. -/
theorem enableAllProfiles_idempotent (cfg : Config) :
    (EnableAllProfiles (EnableAllProfiles cfg)).profileTypes =
      (EnableAllProfiles cfg).profileTypes := rfl

/-- Claim C6: the profile output channel created at construction has
capacity `len(allProfiles) + 1 = 8`, one full catalog round plus one. -/
theorem outProfile_capacity (s : String) :
    (NewProfilerConfig s).outProfileCap = allProfiles.length + 1 ∧
    (NewProfilerConfig s).outProfileCap = 8 :=
  ⟨rfl, rfl⟩

/-- Claim C7: each individual enable operation appends its tag — the result
list is the old list plus the tag, so every previously enabled type remains
enabled and the new type is enabled. -/
theorem enable_individual_appends (cfg : Config) (t : String)
    (h : t ∈ cfg.profileTypes) :
    ((EnableBlockProfile cfg).profileTypes = cfg.profileTypes ++ [block] ∧
      t ∈ (EnableBlockProfile cfg).profileTypes ∧
      block ∈ (EnableBlockProfile cfg).profileTypes) ∧
    ((EnableMutexProfile cfg).profileTypes = cfg.profileTypes ++ [mutex] ∧
      t ∈ (EnableMutexProfile cfg).profileTypes ∧
      mutex ∈ (EnableMutexProfile cfg).profileTypes) ∧
    ((EnableGoRoutineProfile cfg).profileTypes = cfg.profileTypes ++ [goroutine] ∧
      t ∈ (EnableGoRoutineProfile cfg).profileTypes ∧
      goroutine ∈ (EnableGoRoutineProfile cfg).profileTypes) ∧
    ((EnableThreadCreateProfile cfg).profileTypes =
        cfg.profileTypes ++ [threadcreate] ∧
      t ∈ (EnableThreadCreateProfile cfg).profileTypes ∧
      threadcreate ∈ (EnableThreadCreateProfile cfg).profileTypes) := by
  refine ⟨⟨rfl, ?_, ?_⟩, ⟨rfl, ?_, ?_⟩, ⟨rfl, ?_, ?_⟩, ⟨rfl, ?_, ?_⟩⟩ <;>
    simp [EnableBlockProfile, EnableMutexProfile, EnableGoRoutineProfile,
      EnableThreadCreateProfile, h]

/-- Witness for C7 at `cfg = NewProfilerConfig "api"`, `t = heap`. -/
theorem enable_individual_appends_witness :
    heap ∈ (NewProfilerConfig "api").profileTypes ∧
    heap ∈ (EnableBlockProfile (NewProfilerConfig "api")).profileTypes ∧
    block ∈ (EnableBlockProfile (NewProfilerConfig "api")).profileTypes :=
  ⟨by decide,
   (enable_individual_appends (NewProfilerConfig "api") heap (by decide)).1.2.1,
   (enable_individual_appends (NewProfilerConfig "api") heap (by decide)).1.2.2⟩

/-- Claim C9: `SetTargetURL` sets exactly the target URL and the custom flag
and changes nothing else; `WriteProfileToFile` sets exactly the file-output
flag and changes nothing else. -/
theorem setTargetURL_writeProfileToFile_frame (cfg : Config) (u : String) :
    (SetTargetURL cfg u).targetURL = u ∧
    (SetTargetURL cfg u).customTarget = true ∧
    (SetTargetURL cfg u).service = cfg.service ∧
    (SetTargetURL cfg u).interval = cfg.interval ∧
    (SetTargetURL cfg u).duration = cfg.duration ∧
    (SetTargetURL cfg u).profileTypes = cfg.profileTypes ∧
    (SetTargetURL cfg u).dumpToFile = cfg.dumpToFile ∧
    (SetTargetURL cfg u).logf = cfg.logf ∧
    (SetTargetURL cfg u).outProfileCap = cfg.outProfileCap ∧
    (SetTargetURL cfg u).outMetricsCap = cfg.outMetricsCap ∧
    (SetTargetURL cfg u).cancelSet = cfg.cancelSet ∧
    (WriteProfileToFile cfg).dumpToFile = true ∧
    (WriteProfileToFile cfg).targetURL = cfg.targetURL ∧
    (WriteProfileToFile cfg).customTarget = cfg.customTarget ∧
    (WriteProfileToFile cfg).service = cfg.service ∧
    (WriteProfileToFile cfg).interval = cfg.interval ∧
    (WriteProfileToFile cfg).duration = cfg.duration ∧
    (WriteProfileToFile cfg).profileTypes = cfg.profileTypes ∧
    (WriteProfileToFile cfg).logf = cfg.logf ∧
    (WriteProfileToFile cfg).outProfileCap = cfg.outProfileCap ∧
    (WriteProfileToFile cfg).outMetricsCap = cfg.outMetricsCap ∧
    (WriteProfileToFile cfg).cancelSet = cfg.cancelSet :=
  ⟨rfl, rfl, rfl, rfl, rfl, rfl, rfl, rfl, rfl, rfl, rfl, rfl, rfl, rfl, rfl,
   rfl, rfl, rfl, rfl, rfl, rfl, rfl⟩

/-- Claim C10: the two variants agree on the shared builder interface — the
constructors produce the same interval, duration, target URL and file flag,
the same default set `{cpu, heap}`, and `EnableAllProfiles` yields the same
seven-type catalog as a set, although the two catalog lists differ in
order. -/
theorem variants_equivalent (s : String) :
    (Profiler.NewProfilerConfig s).interval =
      (ProfilerB.NewProfilerConfig s).interval ∧
    (Profiler.NewProfilerConfig s).duration =
      (ProfilerB.NewProfilerConfig s).duration ∧
    (Profiler.NewProfilerConfig s).targetURL =
      (ProfilerB.NewProfilerConfig s).targetURL ∧
    (Profiler.NewProfilerConfig s).dumpToFile =
      (ProfilerB.NewProfilerConfig s).dumpToFile ∧
    (Profiler.NewProfilerConfig s).profileTypes.toFinset =
      (ProfilerB.NewProfilerConfig s).profileTypes.toFinset ∧
    (Profiler.NewProfilerConfig s).profileTypes.toFinset =
      ({Profiler.cpu, Profiler.heap} : Finset String) ∧
    (Profiler.EnableAllProfiles (Profiler.NewProfilerConfig s)).profileTypes.toFinset =
      (ProfilerB.EnableAllProfiles (ProfilerB.NewProfilerConfig s)).profileTypes.toFinset ∧
    Profiler.allProfiles ≠ ProfilerB.allProfiles := by
  refine ⟨rfl, rfl, rfl, rfl, ?_, ?_, ?_, ?_⟩
  · show Profiler.defaultProfiles.toFinset = ProfilerB.defaultProfiles.toFinset
    decide
  · show Profiler.defaultProfiles.toFinset = _
    decide
  · show Profiler.allProfiles.toFinset = ProfilerB.allProfiles.toFinset
    decide
  · decide

/-- Every digit below ten renders to a digit character. -/
theorem digitChar_isDigit : ∀ d < 10, (digitChar d).isDigit = true := by decide

/-- `charDigit` inverts `digitChar` on digits. -/
theorem charDigit_digitChar : ∀ d < 10, charDigit (digitChar d) = d := by decide

/-- Every character of a decimal rendering is a digit character. -/
theorem natReprChars_digits (n : Nat) : ∀ c ∈ natReprChars n, c.isDigit = true := by
  intro c hc
  unfold natReprChars at hc
  by_cases h : n = 0
  · rw [if_pos h] at hc
    simp only [List.mem_singleton] at hc
    subst hc
    decide
  · rw [if_neg h, List.mem_reverse] at hc
    obtain ⟨d, hd, rfl⟩ := List.mem_map.mp hc
    exact digitChar_isDigit d (Nat.digits_lt_base (by norm_num) hd)

/-- Folding the digit characters of a digit list recovers its value. -/
theorem unRepr_aux (ds : List Nat) (h : ∀ d ∈ ds, d < 10) :
    List.foldr (fun c acc => 10 * acc + charDigit c) 0 (ds.map digitChar) =
      Nat.ofDigits 10 ds := by
  induction ds with
  | nil => simp
  | cons d ds ih =>
    rw [List.map_cons, List.foldr_cons, Nat.ofDigits_cons,
      ih (fun x hx => h x (List.mem_cons_of_mem d hx)),
      charDigit_digitChar d (h d (List.mem_cons_self d ds))]
    ring

/-- `unRepr` is a left inverse of `natReprChars`. -/
theorem unRepr_natReprChars (n : Nat) : unRepr (natReprChars n) = n := by
  unfold unRepr natReprChars
  by_cases h : n = 0
  · rw [if_pos h, h]
    decide
  · rw [if_neg h, List.foldl_reverse]
    have := unRepr_aux (Nat.digits 10 n)
      (fun d hd => Nat.digits_lt_base (by norm_num) hd)
    rw [Nat.ofDigits_digits 10 n] at this
    exact this

/-- Decimal rendering is injective. -/
theorem natReprChars_inj (a b : Nat) (h : natReprChars a = natReprChars b) :
    a = b := by
  have h2 := congrArg unRepr h
  rwa [unRepr_natReprChars, unRepr_natReprChars] at h2

/-- Splitting a list at a non-digit separator preceded by digit blocks is
unambiguous. -/
theorem digit_block_split (d1 : List Char) :
    ∀ (d2 r1 r2 : List Char) (c : Char),
      (∀ x ∈ d1, x.isDigit = true) → (∀ x ∈ d2, x.isDigit = true) →
      c.isDigit = false → d1 ++ c :: r1 = d2 ++ c :: r2 →
      d1 = d2 ∧ r1 = r2 := by
  induction d1 with
  | nil =>
    intro d2 r1 r2 c _ h2 hc heq
    cases d2 with
    | nil =>
      refine ⟨rfl, ?_⟩
      rw [List.nil_append, List.nil_append] at heq
      injection heq
    | cons e d2 =>
      exfalso
      rw [List.nil_append, List.cons_append] at heq
      injection heq with he _
      rw [← he] at h2
      rw [h2 c (List.mem_cons_self c d2)] at hc
      exact Bool.noConfusion hc
  | cons x d1 ih =>
    intro d2 r1 r2 c h1 h2 hc heq
    cases d2 with
    | nil =>
      exfalso
      rw [List.cons_append, List.nil_append] at heq
      injection heq with hx _
      rw [← hx] at hc
      rw [h1 x (List.mem_cons_self x d1)] at hc
      exact Bool.noConfusion hc
    | cons e d2 =>
      rw [List.cons_append, List.cons_append] at heq
      injection heq with hx htail
      obtain ⟨hd, hr⟩ := ih d2 r1 r2 c
        (fun y hy => h1 y (List.mem_cons_of_mem x hy))
        (fun y hy => h2 y (hx ▸ List.mem_cons_of_mem e hy))
        hc htail
      exact ⟨by rw [hx, hd], hr⟩

/-- The character data of a profile file name, in right-nested form. -/
theorem profileFileName_data (s : String) (ts pid : Nat) (pt : String) :
    (profileFileName s ts pid pt).data =
      s.data ++ '_' ::
        (natReprChars ts ++ '_' :: (natReprChars pid ++ '.' :: pt.data)) := by
  simp [profileFileName, natRepr, String.data_append]

/-- Claim C8: when writing profiles to file is enabled
(`WriteProfileToFile` sets `dumpToFile`), every artifact file is named by the
stable convention `{service}_{unixTimestamp}_{pid}.{profileType}`, and for a
fixed service and process id no two artifacts with distinct timestamps or
distinct profile types collide: equal names force equal timestamp and type. -/
theorem profileFileName_spec (cfg : Config) (ts ts' pid : Nat) (pt pt' : String)
    (h : profileFileName cfg.service ts pid pt =
      profileFileName cfg.service ts' pid pt') :
    (WriteProfileToFile cfg).dumpToFile = true ∧
    profileFileName cfg.service ts pid pt =
      cfg.service ++ "_" ++ natRepr ts ++ "_" ++ natRepr pid ++ "." ++ pt ∧
    ts = ts' ∧ pt = pt' := by
  have hd := congrArg String.data h
  rw [profileFileName_data, profileFileName_data] at hd
  have h2 := List.append_cancel_left hd
  injection h2 with _ h3
  obtain ⟨hts, hR⟩ :=
    digit_block_split (natReprChars ts) (natReprChars ts') _ _ '_'
      (natReprChars_digits ts) (natReprChars_digits ts') (by decide) h3
  have h4 := List.append_cancel_left hR
  injection h4 with _ h5
  refine ⟨rfl, rfl, natReprChars_inj ts ts' hts, ?_⟩
  cases pt with
  | mk l =>
    cases pt' with
    | mk l' => exact congrArg String.mk h5

/-- Witness for C8 at service `"api"`, timestamp 5, pid 3, type `"cpu"`. -/
theorem profileFileName_spec_witness :
    profileFileName (NewProfilerConfig "api").service 5 3 "cpu" =
      profileFileName (NewProfilerConfig "api").service 5 3 "cpu" ∧
    ((WriteProfileToFile (NewProfilerConfig "api")).dumpToFile = true ∧
     profileFileName (NewProfilerConfig "api").service 5 3 "cpu" =
       (NewProfilerConfig "api").service ++ "_" ++ natRepr 5 ++ "_" ++
         natRepr 3 ++ "." ++ "cpu" ∧
     (5 : Nat) = 5 ∧ ("cpu" : String) = "cpu") :=
  ⟨rfl, profileFileName_spec (NewProfilerConfig "api") 5 5 3 "cpu" "cpu" rfl⟩
